import Mathlib

/-!
Verification of the Session Lifecycle and Recovery Manager of the
redbook_mcp repository, as implemented in
`src/infrastructure/browser/browser.py` (class `BrowserManager`) and
`src/infrastructure/browser/login_manager.py` (class `LoginStateManager`).

The Python code is shallowly embedded: each method becomes a pure Lean
function over an explicit state record.  External effects (Playwright calls,
the filesystem, the wall clock) are passed in as explicit arguments or as a
"script" of outcomes for the fallible driver calls; a Python exception is an
`Except.error` value carrying the error message together with the mutated
state at the raise point, and every `try/except` of the source becomes an
explicit match on such a value.  Wall-clock instants are integers (seconds);
one call of a method is modelled as happening at a single instant `now`.
-/

namespace RedbookMcp

/-- Boolean test that the list `n` is a prefix of `h` (character lists). -/
def startsWithSeq : List Char → List Char → Bool
  | [], _ => true
  | _ :: _, [] => false
  | a :: as, b :: bs => a == b && startsWithSeq as bs

/-- Boolean test that `n` occurs contiguously inside `h`; this models the
Python expression `n in h` on strings. -/
def containsSeq (n : List Char) : List Char → Bool
  | [] => n.isEmpty
  | b :: bs => startsWithSeq n (b :: bs) || containsSeq n bs

/-- The specification-side notion of substring occurrence, stated
relationally: `n` occurs contiguously inside `h`. -/
def OccursIn (n h : List Char) : Prop :=
  ∃ p t, h = p ++ n ++ t

theorem startsWithSeq_iff (n : List Char) :
    ∀ h, startsWithSeq n h = true ↔ ∃ t, h = n ++ t := by
  induction n with
  | nil =>
    intro h
    simp [startsWithSeq]
  | cons a as ih =>
    intro h
    cases h with
    | nil =>
      simp [startsWithSeq]
    | cons b bs =>
      simp only [startsWithSeq, Bool.and_eq_true, beq_iff_eq, ih, List.cons_append,
        List.cons.injEq]
      constructor
      · rintro ⟨hab, t, ht⟩
        exact ⟨t, hab.symm, ht⟩
      · rintro ⟨t, hba, ht⟩
        exact ⟨hba.symm, t, ht⟩

theorem containsSeq_iff (n : List Char) :
    ∀ h, containsSeq n h = true ↔ OccursIn n h := by
  intro h
  induction h with
  | nil =>
    cases n with
    | nil =>
      constructor
      · intro _
        exact ⟨[], [], rfl⟩
      · intro _
        rfl
    | cons a as =>
      constructor
      · intro hfalse
        simp [containsSeq, List.isEmpty] at hfalse
      · rintro ⟨p, t, hpt⟩
        cases p with
        | nil => simp at hpt
        | cons c cs => simp at hpt
  | cons b bs ih =>
    simp only [containsSeq, Bool.or_eq_true, startsWithSeq_iff, ih]
    constructor
    · rintro (⟨t, ht⟩ | ⟨p, t, hpt⟩)
      · exact ⟨[], t, by simpa using ht⟩
      · exact ⟨b :: p, t, by simp [hpt]⟩
    · rintro ⟨p, t, hpt⟩
      cases p with
      | nil =>
        exact Or.inl ⟨t, by simpa using hpt⟩
      | cons c cs =>
        right
        rw [List.cons_append, List.cons_append, List.cons.injEq] at hpt
        exact ⟨cs, t, by simpa using hpt.2⟩

/-- Model of Python `str(e).lower()`: lower-case the characters of a
message.  (Python's `.lower()` and `Char.toLower` agree on the ASCII
keywords the classifier searches for.) -/
def lowerStr (s : String) : List Char :=
  s.data.map Char.toLower

/-- The error classifier of `browser.py`: an error message counts as a
closed/disconnected transport when its lower-cased text contains
`"closed"` or `"disconnected"` (lines 153 and 879 of the source). -/
def msgHasClosedOrDisconnected (msg : String) : Bool :=
  containsSeq ("closed".data) (lowerStr msg) ||
    containsSeq ("disconnected".data) (lowerStr msg)

/-- The specification-side classification "resource closed/disconnected":
the lower-cased message contains "closed" or "disconnected". -/
def DisconnectClassified (msg : String) : Prop :=
  OccursIn ("closed".data) (lowerStr msg) ∨
    OccursIn ("disconnected".data) (lowerStr msg)

theorem msgClass_iff (msg : String) :
    msgHasClosedOrDisconnected msg = true ↔ DisconnectClassified msg := by
  unfold msgHasClosedOrDisconnected DisconnectClassified
  rw [Bool.or_eq_true, containsSeq_iff, containsSeq_iff]

/-- `_start_browser`'s test for a browser-singleton conflict error:
the raw message contains `"ProcessSingleton"` or `"SingletonLock"`
(line 390 of `browser.py`). -/
def msgHasSingletonConflict (msg : String) : Bool :=
  containsSeq ("ProcessSingleton".data) msg.data ||
    containsSeq ("SingletonLock".data) msg.data

/-- The mutable fields of `BrowserManager` (`__init__`, lines 26-41 of
`browser.py`).  Opaque Playwright handles (`playwright_instance`,
`browser_context`, `main_page`) are modelled by their truthiness — the only
property the manager's control flow inspects.  `browser_healthy` models the
`_browser_healthy` flag and `max_restarts_per_hour` the instance attribute
of the same name (set to 3 in `__init__`). -/
structure BrowserState where
  playwright_instance : Bool
  browser_context : Bool
  main_page : Bool
  is_logged_in : Bool
  last_health_check : Int
  restart_timestamps : List Int
  browser_healthy : Bool
  max_restarts_per_hour : Nat
  deriving DecidableEq, Repr

/-- Observable events, recorded as a trace so that claims about "no probe",
"budget consumption", "forced check", etc. can be stated. -/
inductive Ev where
  | fastPath
  | budgetDenied
  | healthProbe
  | budgetAppend
  | startBrowser
  | safeRestart
  | lightRecovery
  | restoreLogin
  | saveState
  | ensureCall (force : Bool)
  deriving DecidableEq, Repr

/-- Outcome of the staged check of `_needs_browser_restart`'s try-block:
the `is_closed` probe either completes with a boolean, or some stage
raises with a message. -/
inductive ProbeOutcome where
  | finished (isClosed : Bool)
  | raised (msg : String)
  deriving DecidableEq, Repr

/-- The script of outcomes of the external (Playwright / login-manager)
calls that one `ensure_browser` invocation can make.  `startAttempts i` is
the outcome of the i-th launch attempt of `_start_browser` (`none` =
success, `some msg` = an exception with that message); `restoreResult` is
the scripted outcome of `login_manager.auto_restore_login()` (whose own
internal recursion back into `ensure_browser` is cut at this boundary);
`ctxPages` is the number of pages `browser_context.pages` currently holds,
and `newPageOk` says whether `browser_context.new_page()` succeeds during
light recovery. -/
structure EnsureScript where
  ctxPages : Nat
  probe : ProbeOutcome
  startAttempts : Nat → Option String
  restoreResult : Except String Bool
  newPageOk : Bool

/-- Prune restart timestamps to the rolling window: keep entries younger
than 3600 s (lines 64 and 169 of `browser.py`). -/
def pruneWindow (now : Int) (ts : List Int) : List Int :=
  ts.filter (fun t => now - t < 3600)

/-- The state after the in-place pruning `self.restart_timestamps = [...]`. -/
def pruneState (s : BrowserState) (now : Int) : BrowserState :=
  { s with restart_timestamps := pruneWindow now s.restart_timestamps }

/-- `_can_restart` (lines 160-177): prune the restart record, then allow a
restart only while the in-window count is below `max_restarts_per_hour`. -/
def can_restart (s : BrowserState) (now : Int) : Bool × BrowserState :=
  if (pruneWindow now s.restart_timestamps).length ≥ s.max_restarts_per_hour then
    (false, pruneState s now)
  else
    (true, pruneState s now)

/-- `_needs_browser_restart` (lines 121-158).  Level 1 (existence), level 2
(page recovery from `browser_context.pages`), level 3 (the `is_closed`
liveness probe).  An exception in the try-block is classified by
`msgHasClosedOrDisconnected`: only closed/disconnected errors yield `true`,
every other error yields `false`.  The `hasattr` guards hold for any live
Playwright object and are modelled as passing. -/
def needs_browser_restart (s : BrowserState) (sc : EnsureScript) :
    Bool × BrowserState × List Ev :=
  if s.browser_context = false ∨ s.playwright_instance = false then
    (true, s, [])
  else if s.main_page = false then
    if sc.ctxPages > 0 then (false, { s with main_page := true }, [])
    else (true, s, [])
  else
    match sc.probe with
    | ProbeOutcome.finished isClosed => (isClosed, s, [Ev.healthProbe])
    | ProbeOutcome.raised msg =>
      if msgHasClosedOrDisconnected msg = true then (true, s, [Ev.healthProbe])
      else (false, s, [Ev.healthProbe])

/-- `_light_recovery` (lines 179-215): try a fresh page, then an existing
page; never raises (its own try/except swallows everything). -/
def light_recovery (s : BrowserState) (sc : EnsureScript) : Bool × BrowserState :=
  if s.browser_context = true then
    if sc.newPageOk = true then (true, { s with main_page := true })
    else if sc.ctxPages > 0 then (true, { s with main_page := true })
    else (false, s)
  else (false, s)

/-- Reset the three handle fields to the torn-down state (the
`self.browser_context = None` / `self.main_page = None` /
`self.playwright_instance = None` blocks of the source). -/
def resetHandles (s : BrowserState) : BrowserState :=
  { s with
    browser_context := false
    main_page := false
    playwright_instance := false }

/-- The launch loop of `_start_browser` (lines 283-419): up to
`max_restart_attempts = 3` attempts.  A successful attempt installs fresh
handles, sets `_browser_healthy`, and appends one restart timestamp
(lines 376-383).  A singleton-conflict error retries without resetting the
handle fields; any other error resets the handles and re-raises once the
attempt budget is spent.  `remaining` counts the attempts still allowed,
`idx` indexes into the outcome script. -/
def start_browser_go (now : Int) (oc : Nat → Option String) :
    Nat → Nat → BrowserState → Except (String × BrowserState) (BrowserState × List Ev)
  | 0, _, s => Except.error ("max launch attempts exhausted", s)
  | remaining + 1, idx, s =>
    match oc idx with
    | none =>
      Except.ok ({ s with
        playwright_instance := true
        browser_context := true
        main_page := true
        browser_healthy := true
        restart_timestamps := s.restart_timestamps ++ [now] }, [Ev.budgetAppend])
    | some msg =>
      if msgHasSingletonConflict msg = true then
        start_browser_go now oc remaining (idx + 1) s
      else if remaining = 0 then
        Except.error (msg, resetHandles s)
      else
        start_browser_go now oc remaining (idx + 1) (resetHandles s)

/-- `_start_browser` (lines 274-419). -/
def start_browser (s : BrowserState) (now : Int) (oc : Nat → Option String) :
    Except (String × BrowserState) (BrowserState × List Ev) :=
  start_browser_go now oc 3 0 s

/-- Effect on the manager of the scripted `auto_restore_login()` call made
right after a (re)start: the call is wrapped in its own try/except, so an
exception it raises is swallowed; a completed call reports whether the
login state was restored. -/
def apply_restore (s : BrowserState) (r : Except String Bool) : BrowserState :=
  match r with
  | Except.ok b => { s with is_logged_in := b }
  | Except.error _ => s

/-- Trace of the conditional `save_login_state` call of `_safe_restart`
(lines 225-232; only made while logged in, and its own failures are
swallowed). -/
def saveTrace (s : BrowserState) : List Ev :=
  if s.is_logged_in = true then [Ev.saveState] else []

/-- `_safe_restart` (lines 217-272): save login state if logged in, close
and stop the old handles (exceptions swallowed), reset the fields, append
one restart timestamp (line 253), start a new browser (which appends a
second timestamp on success), then attempt a login restore.  A launch
failure is re-raised (line 272). -/
def safe_restart (s : BrowserState) (now : Int) (sc : EnsureScript) :
    Except (String × BrowserState × List Ev) (BrowserState × List Ev) :=
  match start_browser
      { resetHandles s with restart_timestamps := s.restart_timestamps ++ [now] }
      now sc.startAttempts with
  | Except.error (msg, s3) =>
    Except.error (msg, s3, saveTrace s ++ [Ev.budgetAppend])
  | Except.ok (s3, tr1) =>
    Except.ok (apply_restore s3 sc.restoreResult,
      saveTrace s ++ Ev.budgetAppend :: tr1 ++ [Ev.restoreLogin])

/-- The try-block of `ensure_browser` (lines 60-106), after the in-place
pruning of the restart record: budget gate, fast path, cold start, health
check and tiered recovery.  An `Except.error` value is an exception
escaping the try-block into the outer handler. -/
def ensure_body1 (s0 : BrowserState) (now : Int) (force_check : Bool) (sc : EnsureScript) :
    Except (String × BrowserState × List Ev) (Bool × BrowserState × List Ev) :=
  if s0.restart_timestamps.length ≥ s0.max_restarts_per_hour then
    Except.ok (false, s0, [Ev.budgetDenied])
  else if force_check = false ∧ s0.browser_context = true ∧ s0.main_page = true
      ∧ now - s0.last_health_check < 300 then
    Except.ok (true, s0, [Ev.fastPath])
  else if s0.browser_context = false ∨ s0.main_page = false then
    match start_browser s0 now sc.startAttempts with
    | Except.error (msg, s1) => Except.error (msg, s1, [Ev.startBrowser])
    | Except.ok (s1, tr1) =>
      Except.ok (true, apply_restore s1 sc.restoreResult,
        Ev.startBrowser :: tr1 ++ [Ev.restoreLogin])
  else
    match needs_browser_restart s0 sc with
    | (true, s1, tr1) =>
      match can_restart s1 now with
      | (true, s2) =>
        (match safe_restart s2 now sc with
         | Except.error (msg, s3, tr2) =>
           Except.error (msg, s3, tr1 ++ Ev.safeRestart :: tr2)
         | Except.ok (s3, tr2) =>
           Except.ok (true, s3, tr1 ++ Ev.safeRestart :: tr2))
      | (false, s2) => Except.ok (false, s2, tr1)
    | (false, s1, tr1) =>
      Except.ok (true, { s1 with last_health_check := now }, tr1)

/-- The try-block of `ensure_browser`, including the initial pruning of
`restart_timestamps` (line 64). -/
def ensure_body (s : BrowserState) (now : Int) (force_check : Bool) (sc : EnsureScript) :
    Except (String × BrowserState × List Ev) (Bool × BrowserState × List Ev) :=
  ensure_body1 (pruneState s now) now force_check sc

/-- `ensure_browser` (lines 51-119): the try-block plus the outer
`except Exception` handler (lines 108-119), which checks `_can_restart`
and, when allowed, runs one `_light_recovery` and returns True (the
recovery's own boolean result is not consulted); otherwise returns False.
The result is an `Except` only to make "never raises" a provable statement:
the handler converts every escaping exception into a returned boolean. -/
def ensure_browser (s : BrowserState) (now : Int) (force_check : Bool) (sc : EnsureScript) :
    Except String (Bool × BrowserState × List Ev) :=
  match ensure_body s now force_check sc with
  | Except.ok r => Except.ok r
  | Except.error (_, s1, tr1) =>
    if (can_restart s1 now).fst = true then
      Except.ok (true, (light_recovery (can_restart s1 now).snd sc).snd,
        tr1 ++ [Ev.lightRecovery])
    else
      Except.ok (false, (can_restart s1 now).snd, tr1)

/-- Helper projections on fallible results. -/
def isOkE {e a : Type} : Except e a → Bool
  | Except.ok _ => true
  | Except.error _ => false

def okResult {e a : Type} : Except e a → Option a
  | Except.ok v => some v
  | Except.error _ => none

/-- Script of one `goto` call: `attempts i` is the outcome of the i-th
`main_page.goto(url)` attempt (`none` = success, `some msg` = an exception),
and `ens i` scripts the i-th `ensure_browser` call that `goto` makes. -/
structure GotoScript where
  attempts : Nat → Option String
  ens : Nat → EnsureScript

/-- Run `ensure_browser` and record the call (with its `force_check` flag)
in front of the events the call produced.  The error branch is dead code:
`ensure_browser` always returns `Except.ok` (see `C9_theorem`). -/
def run_ensure (s : BrowserState) (now : Int) (force : Bool) (sc : EnsureScript) :
    Bool × BrowserState × List Ev :=
  match ensure_browser s now force sc with
  | Except.ok (b, s1, tr) => (b, s1, Ev.ensureCall force :: tr)
  | Except.error _ => (false, s, [Ev.ensureCall force])

/-- Prepend already-recorded events to a `goto` continuation result. -/
def withTrace (pre : List Ev) (r : Bool × BrowserState × List Ev) :
    Bool × BrowserState × List Ev :=
  (r.fst, r.snd.fst, pre ++ r.snd.snd)

/-- The retry loop of `goto` (lines 857-903 of `browser.py`), classifying
each failure message in the source's order: timeout → backoff and retry;
closed/disconnected → set `_browser_healthy = False` and, if retries
remain, call `ensure_browser(force_check=True)` (its result is discarded)
and retry; navigation → retry; anything else → retry.  Once the final
attempt fails, `goto` returns False without any further `ensure` call.
`fuel` is the number of attempts still allowed (`max_retries + 1 - idx`). -/
def goto_loop (now : Int) (maxRetries : Nat) (gsc : GotoScript) :
    Nat → Nat → Nat → BrowserState → Bool × BrowserState × List Ev
  | 0, _, _, s => (false, s, [])
  | fuel + 1, idx, ensIdx, s =>
    match gsc.attempts idx with
    | none => (true, s, [])
    | some msg =>
      if containsSeq ("timeout".data) (lowerStr msg) = true then
        if idx < maxRetries then goto_loop now maxRetries gsc fuel (idx + 1) ensIdx s
        else (false, s, [])
      else if msgHasClosedOrDisconnected msg = true then
        if idx < maxRetries then
          withTrace
            (run_ensure { s with browser_healthy := false } now true (gsc.ens ensIdx)).snd.snd
            (goto_loop now maxRetries gsc fuel (idx + 1) (ensIdx + 1)
              (run_ensure { s with browser_healthy := false } now true
                (gsc.ens ensIdx)).snd.fst)
        else (false, { s with browser_healthy := false }, [])
      else if containsSeq ("navigation".data) (lowerStr msg) = true then
        if idx < maxRetries then goto_loop now maxRetries gsc fuel (idx + 1) ensIdx s
        else (false, s, [])
      else
        if idx < maxRetries then goto_loop now maxRetries gsc fuel (idx + 1) ensIdx s
        else (false, s, [])

/-- `goto` (lines 845-903): if `_browser_healthy` is unset, first call
`ensure_browser()` — with the default `force_check=False` — then run the
retry loop. -/
def goto (s : BrowserState) (now : Int) (maxRetries : Nat) (gsc : GotoScript) :
    Bool × BrowserState × List Ev :=
  if s.browser_healthy = false then
    withTrace (run_ensure s now false (gsc.ens 0)).snd.snd
      (goto_loop now maxRetries gsc (maxRetries + 1) 0 1
        (run_ensure s now false (gsc.ens 0)).snd.fst)
  else
    goto_loop now maxRetries gsc (maxRetries + 1) 0 0 s

/-- `close` (lines 965-1046): every teardown step runs in its own inner
try/except (a scripted failure is logged and swallowed, affecting only the
external resources), after which all handle and status fields are reset;
the outer handler performs the same reset, so the reset is unconditional
and `close` never raises. -/
structure CloseScript where
  ctxCloseFails : Bool
  stopFails : Bool
  procCleanupFails : Bool
  lockCleanupFails : Bool
  deriving DecidableEq, Repr

/-- The field reset shared by the try-tail (lines 1027-1032) and the outer
handler (lines 1042-1046) of `close`. -/
def close_reset (s : BrowserState) : BrowserState :=
  { s with
    main_page := false
    browser_context := false
    playwright_instance := false
    is_logged_in := false
    browser_healthy := false }

def close (s : BrowserState) (sc : CloseScript) : Except String BrowserState :=
  match (if sc.ctxCloseFails then Except.error "close failed" else Except.ok () :
      Except String Unit) with
  | _ =>
  match (if sc.stopFails then Except.error "stop failed" else Except.ok () :
      Except String Unit) with
  | _ =>
  match (if sc.procCleanupFails then Except.error "proc cleanup failed" else Except.ok () :
      Except String Unit) with
  | _ =>
  match (if sc.lockCleanupFails then Except.error "lock cleanup failed" else Except.ok () :
      Except String Unit) with
  | _ => Except.ok (close_reset s)

/-- A persisted login-state record (`login_state.json`, written by
`save_login_state`, lines 34-61 of `login_manager.py`).  `login_time` is
the record's creation instant in seconds; the remaining persisted fields
(session id, data dir, attempts, activity, login info) are opaque to the
retention logic and folded into `info`. -/
structure LoginRecord where
  login_time : Int
  info : Nat
  deriving DecidableEq, Repr

/-- The on-disk store holding at most one record (`none` = file absent). -/
structure LoginStore where
  record : Option LoginRecord
  deriving DecidableEq, Repr

/-- `max_login_retention_days = 30` (config.py line 63), in seconds. -/
def maxLoginRetentionSecs : Int := 30 * 86400

/-- `clear_login_state` (lines 93-105): delete the record file. -/
def clear_login_state (_st : LoginStore) : LoginStore :=
  { record := none }

/-- `load_login_state` (lines 63-91): absent file → `none`; a record older
than the retention window → clear the store and return `none`; otherwise
return the record unchanged. -/
def load_login_state (st : LoginStore) (now : Int) : Option LoginRecord × LoginStore :=
  match st.record with
  | none => (none, st)
  | some r =>
    if now - r.login_time > maxLoginRetentionSecs then
      (none, clear_login_state st)
    else
      (some r, st)

/-- Archive access events (the credential-snapshot archive is only ever
written by `_backup_cookies`; no code path of `login_manager.py` reads a
snapshot back). -/
inductive ArchEv where
  | archiveRead
  | archiveWrite
  deriving DecidableEq, Repr

/-- Scripted outcome of the browser-dependent tail of `auto_restore_login`
(the `ensure_browser` call, whose result line 178 discards, and
`check_login_status(force_check=True)`, whose boolean decides the result). -/
structure RestoreScript where
  checkLogin : Bool
  deriving DecidableEq, Repr

/-- `auto_restore_login` (lines 157-191): load the record; absent (or
expired, hence cleared) record → report failure immediately; otherwise the
scripted login check decides.  The returned event list records every
archive access the call performs — there are none on any path. -/
def auto_restore_login (st : LoginStore) (now : Int) (sc : RestoreScript) :
    Bool × LoginStore × List ArchEv :=
  match load_login_state st now with
  | (none, st1) => (false, st1, [])
  | (some _, st1) =>
    if sc.checkLogin = true then (true, st1, [])
    else (false, st1, [])

/-- `cookie_backup_interval = 1800` seconds (config.py line 66). -/
def cookieBackupInterval : Int := 1800

/-- Retention count of the snapshot archive (line 291: keep the newest 5). -/
def maxCookieBackups : Nat := 5

/-- The credential-snapshot archive directory plus the manager's
`_last_cookie_backup` field.  `files` is the directory listing as
`sorted(glob("cookies_*.json"))` produces it: snapshot names in ascending
order (the fixed-width `%Y%m%d_%H%M%S` name format makes lexicographic and
chronological order agree), modelled as naturals, without duplicates. -/
structure ArchiveState where
  files : List Nat
  lastBackup : Int
  deriving DecidableEq, Repr

/-- Write the snapshot named `t` into the sorted directory listing
(`open(path, "w")` overwrites a same-named file). -/
def insertName (t : Nat) : List Nat → List Nat
  | [] => [t]
  | x :: xs =>
    if t < x then t :: x :: xs
    else if t = x then x :: xs
    else x :: insertName t xs

/-- The pruning step of `_backup_cookies` (lines 289-293): when more than
`maxCookieBackups` snapshots exist, delete all but the newest five
(`backup_files[:-5]` of the sorted listing are unlinked). -/
def prunedFiles (l : List Nat) : List Nat :=
  if l.length > maxCookieBackups then l.drop (l.length - maxCookieBackups) else l

/-- `_backup_cookies` (lines 266-299): skip when called within the minimum
interval since the last successful backup, or when no live context exists;
otherwise write a snapshot named after the current instant, prune to the
newest five, and record the backup time.  The boolean reports whether a
snapshot write happened. -/
def backup_cookies (a : ArchiveState) (now : Int) (name : Nat) (ctx : Bool) :
    ArchiveState × Bool :=
  if now - a.lastBackup < cookieBackupInterval then (a, false)
  else if ctx = false then (a, false)
  else
    ({ files := prunedFiles (insertName name a.files), lastBackup := now }, true)

/-- Iterate a sequence of `_backup_cookies` calls, each with its instant,
snapshot name and context-liveness bit. -/
def run_backups : ArchiveState → List (Int × Nat × Bool) → ArchiveState
  | a, [] => a
  | a, c :: rest => run_backups (backup_cookies a c.fst c.snd.fst c.snd.snd).fst rest

/-! Concrete states and scripts used by witnesses and counterexamples. -/

/-- A script on which every external call succeeds benignly. -/
def scriptOk : EnsureScript :=
  ⟨0, ProbeOutcome.finished false, fun _ => none, Except.ok false, true⟩

/-- A fast-path-eligible state whose restart record already holds three
in-window timestamps. -/
def budgetFullState : BrowserState := ⟨true, true, true, false, 1000, [1100, 1100, 1100], true, 3⟩

/-- A fast-path-eligible state with an empty restart record. -/
def freshState : BrowserState := ⟨true, true, true, false, 100, [], true, 3⟩

/-- A live state with one in-window and one aged-out restart timestamp. -/
def agedState : BrowserState := ⟨true, true, true, false, 0, [0, 3900], true, 3⟩

/-- A live state with a record of exactly limit timestamps at instant 0. -/
def recordFullState : BrowserState := ⟨true, true, true, false, 0, [0, 0, 0], true, 3⟩

/-- A live, healthy state used for probing the health classifier. -/
def probeErrState : BrowserState := ⟨true, true, true, false, 0, [], true, 3⟩

/-- A script whose liveness probe raises a "Target page closed" error. -/
def probeClosedScript : EnsureScript :=
  ⟨0, ProbeOutcome.raised "Target page closed", fun _ => none, Except.ok false, true⟩

/-- An expired persisted login record (created at instant 0). -/
def expiredRecord : LoginRecord := ⟨0, 0⟩

def restoreScriptTrue : RestoreScript := ⟨true⟩

/-! ## Claim C10 -/

/-- C10: `close()` never raises and always leaves the manager fully torn
down: after `close` returns, the driver handle, context and main view are
all absent and both the authenticated flag and the healthy flag are false,
even when closing the context or stopping the driver raised; the restart
record is untouched. -/
theorem C10_theorem : ∀ (s : BrowserState) (sc : CloseScript),
    close s sc = Except.ok (close_reset s)
    ∧ (close_reset s).browser_context = false
    ∧ (close_reset s).main_page = false
    ∧ (close_reset s).playwright_instance = false
    ∧ (close_reset s).is_logged_in = false
    ∧ (close_reset s).browser_healthy = false
    ∧ (close_reset s).restart_timestamps = s.restart_timestamps := by
  intro s sc
  exact ⟨rfl, rfl, rfl, rfl, rfl, rfl, rfl⟩

/-! ## Claim C3 -/

/-- C3 counterexample: the claim as stated ("N ≤ limit timestamps younger
than 3600 s implies canConsume() is true") is false at the boundary: with
exactly limit = 3 in-window timestamps, `_can_restart` returns false. -/
theorem C3_counterexample :
    (pruneWindow 0 recordFullState.restart_timestamps).length ≤
      recordFullState.max_restarts_per_hour
    ∧ (can_restart recordFullState 0).fst = false :=
  ⟨by decide, by decide⟩

/-- C3 (amended): `_can_restart` returns true iff strictly fewer than
`max_restarts_per_hour` timestamps are younger than 3600 s — so the
(limit+1)th consume inside one rolling window is denied — and at each check
the record is pruned to the window, so an aged-out timestamp is gone and
availability resets. -/
theorem C3_theorem : ∀ (s : BrowserState) (now : Int),
    ((can_restart s now).fst = true ↔
      (pruneWindow now s.restart_timestamps).length < s.max_restarts_per_hour)
    ∧ (can_restart s now).snd.restart_timestamps = pruneWindow now s.restart_timestamps
    ∧ (∀ t, t ∈ s.restart_timestamps → 3600 ≤ now - t →
        t ∉ (can_restart s now).snd.restart_timestamps) := by
  intro s now
  have hsnd : (can_restart s now).snd = pruneState s now := by
    unfold can_restart
    split
    · rfl
    · rfl
  refine ⟨?_, ?_, ?_⟩
  · unfold can_restart
    by_cases h : (pruneWindow now s.restart_timestamps).length ≥ s.max_restarts_per_hour
    · rw [if_pos h]
      simp only [Bool.false_eq_true, false_iff]
      omega
    · rw [if_neg h]
      simp only [true_iff]
      omega
  · rw [hsnd]
    rfl
  · intro t ht hold
    rw [hsnd]
    unfold pruneState pruneWindow
    simp only [List.mem_filter, decide_eq_true_eq, not_and]
    intro _
    omega

/-- C3 witness: at instant 4000, the aged-out timestamp 0 has been pruned
from the record. -/
theorem C3_witness : (0 : Int) ∉ (can_restart agedState 4000).snd.restart_timestamps :=
  (C3_theorem agedState 4000).2.2 0 (by decide) (by decide)

/-! ## Claim C5 -/

/-- C5: a stored record whose retention deadline (createdAt + 30 days) has
passed is treated like an absent record: `load_login_state` returns `none`
and clears the store as a side effect, and `auto_restore_login` reports
failure without a single archive read — exactly the result produced when no
record exists at all. -/
theorem C5_theorem : ∀ (r : LoginRecord) (now : Int) (sc : RestoreScript),
    r.login_time + maxLoginRetentionSecs < now →
    load_login_state ⟨some r⟩ now = (none, (⟨none⟩ : LoginStore))
    ∧ auto_restore_login ⟨some r⟩ now sc = (false, ⟨none⟩, [])
    ∧ auto_restore_login (⟨none⟩ : LoginStore) now sc = (false, ⟨none⟩, []) := by
  intro r now sc h
  have hload : load_login_state ⟨some r⟩ now = (none, (⟨none⟩ : LoginStore)) := by
    unfold load_login_state
    dsimp only
    rw [if_pos (by omega)]
    rfl
  refine ⟨hload, ?_, rfl⟩
  unfold auto_restore_login
  rw [hload]

/-- C5 witness: a record created at instant 0, loaded at instant 2600000
(past the 2592000 s retention window), behaves as absent. -/
theorem C5_witness :
    load_login_state ⟨some expiredRecord⟩ 2600000 = (none, (⟨none⟩ : LoginStore))
    ∧ auto_restore_login ⟨some expiredRecord⟩ 2600000 restoreScriptTrue = (false, ⟨none⟩, [])
    ∧ auto_restore_login (⟨none⟩ : LoginStore) 2600000 restoreScriptTrue = (false, ⟨none⟩, []) :=
  C5_theorem expiredRecord 2600000 restoreScriptTrue (by decide)

/-! ## Claim C6 -/

/-- C6: during the liveness health check, a probe error is judged to need a
restart exactly when it is classified "resource closed/disconnected" (its
lower-cased message contains "closed" or "disconnected"); every other probe
error yields the verdict "no restart needed". -/
theorem C6_theorem : ∀ (s : BrowserState) (sc : EnsureScript) (msg : String),
    s.browser_context = true → s.playwright_instance = true → s.main_page = true →
    sc.probe = ProbeOutcome.raised msg →
    ((needs_browser_restart s sc).fst = true ↔ DisconnectClassified msg) := by
  intro s sc msg hctx hpw hpage hprobe
  have hfst : (needs_browser_restart s sc).fst = msgHasClosedOrDisconnected msg := by
    unfold needs_browser_restart
    rw [if_neg (by simp [hctx, hpw]), if_neg (by simp [hpage]), hprobe]
    dsimp only
    by_cases hm : msgHasClosedOrDisconnected msg = true
    · rw [if_pos hm]
      exact hm.symm
    · rw [if_neg hm]
      rw [Bool.not_eq_true] at hm
      exact hm.symm
  rw [hfst]
  exact msgClass_iff msg

/-- C6 witness: the probe error "Target page closed" is classified
closed/disconnected, so the verdict is "restart needed". -/
theorem C6_witness : (needs_browser_restart probeErrState probeClosedScript).fst = true :=
  (C6_theorem probeErrState probeClosedScript "Target page closed" rfl rfl rfl rfl).mpr
    (Or.inl ((containsSeq_iff ("closed".data) (lowerStr "Target page closed")).mp (by decide)))

/-! ## Claim C8 -/

/-- A `_backup_cookies` call that reports a write took the write branch. -/
theorem backup_write (a : ArchiveState) (now : Int) (name : Nat) (ctx : Bool)
    (hw : (backup_cookies a now name ctx).snd = true) :
    (backup_cookies a now name ctx).fst
      = { files := prunedFiles (insertName name a.files), lastBackup := now } := by
  unfold backup_cookies at hw ⊢
  by_cases h1 : now - a.lastBackup < cookieBackupInterval
  · rw [if_pos h1] at hw
    exact absurd hw (by simp)
  · rw [if_neg h1] at hw ⊢
    by_cases h2 : ctx = false
    · rw [if_pos h2] at hw
      exact absurd hw (by simp)
    · rw [if_neg h2]

/-- C8: a second `backup()` call made less than the minimum interval
(1800 s) after a first call that actually wrote is a complete no-op: it
changes no archive state and reports no write, so the pair produces exactly
one snapshot write. -/
theorem C8_theorem : ∀ (a : ArchiveState) (t1 : Int) (n1 : Nat) (c1 : Bool)
    (t2 : Int) (n2 : Nat) (c2 : Bool),
    (backup_cookies a t1 n1 c1).snd = true →
    t2 - t1 < cookieBackupInterval →
    backup_cookies (backup_cookies a t1 n1 c1).fst t2 n2 c2
      = ((backup_cookies a t1 n1 c1).fst, false) := by
  intro a t1 n1 c1 t2 n2 c2 hw hint
  have hc := backup_write a t1 n1 c1 hw
  rw [hc]
  unfold backup_cookies
  dsimp only
  rw [if_pos hint]

/-- C8 witness: a write at instant 2000 followed by a call at 2500. -/
theorem C8_witness :
    backup_cookies (backup_cookies ⟨[], 0⟩ 2000 2 true).fst 2500 3 true
      = ((backup_cookies ⟨[], 0⟩ 2000 2 true).fst, false) :=
  C8_theorem ⟨[], 0⟩ 2000 2 true 2500 3 true (by decide) (by decide)

/-! ## Claim C7 -/

theorem insertName_length (t : Nat) : ∀ (l : List Nat),
    (insertName t l).length ≤ l.length + 1 := by
  intro l
  induction l with
  | nil => simp [insertName]
  | cons x xs ih =>
    unfold insertName
    by_cases h1 : t < x
    · rw [if_pos h1]
      simp
    · rw [if_neg h1]
      by_cases h2 : t = x
      · rw [if_pos h2]
        simp
      · rw [if_neg h2]
        simpa using Nat.succ_le_succ ih

theorem insertName_mem {b t : Nat} : ∀ {l : List Nat},
    b ∈ insertName t l → b = t ∨ b ∈ l := by
  intro l
  induction l with
  | nil =>
    intro h
    simp [insertName] at h
    exact Or.inl h
  | cons x xs ih =>
    intro h
    unfold insertName at h
    by_cases h1 : t < x
    · rw [if_pos h1] at h
      rcases List.mem_cons.mp h with h2 | h2
      · exact Or.inl h2
      · exact Or.inr h2
    · rw [if_neg h1] at h
      by_cases h2 : t = x
      · rw [if_pos h2] at h
        exact Or.inr h
      · rw [if_neg h2] at h
        rcases List.mem_cons.mp h with h3 | h3
        · exact Or.inr (List.mem_cons.mpr (Or.inl h3))
        · rcases ih h3 with h4 | h4
          · exact Or.inl h4
          · exact Or.inr (List.mem_cons.mpr (Or.inr h4))

theorem insertName_sorted (t : Nat) : ∀ (l : List Nat),
    l.Sorted (fun u v => u < v) → (insertName t l).Sorted (fun u v => u < v) := by
  intro l
  induction l with
  | nil =>
    intro _
    simp [insertName]
  | cons x xs ih =>
    intro hs
    rw [List.sorted_cons] at hs
    obtain ⟨hx, hxs⟩ := hs
    unfold insertName
    by_cases h1 : t < x
    · rw [if_pos h1, List.sorted_cons]
      refine ⟨?_, ?_⟩
      · intro b hb
        rcases List.mem_cons.mp hb with h2 | h2
        · omega
        · exact lt_trans h1 (hx b h2)
      · rw [List.sorted_cons]
        exact ⟨hx, hxs⟩
    · rw [if_neg h1]
      by_cases h2 : t = x
      · rw [if_pos h2, List.sorted_cons]
        exact ⟨hx, hxs⟩
      · rw [if_neg h2, List.sorted_cons]
        refine ⟨?_, ih hxs⟩
        intro b hb
        rcases insertName_mem hb with h3 | h3
        · omega
        · exact hx b h3

/-- Single-step preservation of the archive size bound. -/
theorem backup_len_le (a : ArchiveState) (now : Int) (name : Nat) (ctx : Bool)
    (h : a.files.length ≤ maxCookieBackups) :
    (backup_cookies a now name ctx).fst.files.length ≤ maxCookieBackups := by
  unfold backup_cookies
  by_cases h1 : now - a.lastBackup < cookieBackupInterval
  · rw [if_pos h1]
    exact h
  · rw [if_neg h1]
    by_cases h2 : ctx = false
    · rw [if_pos h2]
      exact h
    · rw [if_neg h2]
      dsimp only
      unfold prunedFiles
      by_cases h3 : (insertName name a.files).length > maxCookieBackups
      · rw [if_pos h3]
        rw [List.length_drop]
        omega
      · rw [if_neg h3]
        omega

theorem run_backups_len : ∀ (calls : List (Int × Nat × Bool)) (a : ArchiveState),
    a.files.length ≤ maxCookieBackups →
    (run_backups a calls).files.length ≤ maxCookieBackups := by
  intro calls
  induction calls with
  | nil =>
    intro a h
    exact h
  | cons c rest ih =>
    intro a h
    exact ih _ (backup_len_le a c.fst c.snd.fst c.snd.snd h)

/-- C7: starting from an archive holding at most K = 5 snapshots, every
sequence of `backup()` calls leaves at most K snapshots in the archive;
and whenever a writing call prunes, each removed snapshot name is strictly
older (smaller) than every retained one — the oldest snapshots are the ones
removed. -/
theorem C7_theorem :
    (∀ (a : ArchiveState) (calls : List (Int × Nat × Bool)),
      a.files.length ≤ maxCookieBackups →
      (run_backups a calls).files.length ≤ maxCookieBackups)
    ∧ (∀ (a : ArchiveState) (now : Int) (name : Nat) (ctx : Bool) (x y : Nat),
      a.files.Sorted (fun u v => u < v) →
      (backup_cookies a now name ctx).snd = true →
      x ∈ insertName name a.files →
      x ∉ (backup_cookies a now name ctx).fst.files →
      y ∈ (backup_cookies a now name ctx).fst.files →
      x < y) := by
  constructor
  · intro a calls h
    exact run_backups_len calls a h
  · intro a now name ctx x y hsorted hw hx hxn hy
    rw [backup_write a now name ctx hw] at hxn hy
    dsimp only at hxn hy
    unfold prunedFiles at hxn hy
    by_cases h3 : (insertName name a.files).length > maxCookieBackups
    · rw [if_pos h3] at hxn hy
      have hs1 : (insertName name a.files).Sorted (fun u v => u < v) :=
        insertName_sorted name a.files hsorted
      have hxtake : x ∈ (insertName name a.files).take
          ((insertName name a.files).length - maxCookieBackups) := by
        rw [← List.take_append_drop
          ((insertName name a.files).length - maxCookieBackups)
          (insertName name a.files)] at hx
        rcases List.mem_append.mp hx with h4 | h4
        · exact h4
        · exact absurd h4 hxn
      have hpw : ((insertName name a.files).take
            ((insertName name a.files).length - maxCookieBackups)
          ++ (insertName name a.files).drop
            ((insertName name a.files).length - maxCookieBackups)).Pairwise
            (fun u v => u < v) := by
        rw [List.take_append_drop]
        exact hs1
      exact (List.pairwise_append.mp hpw).2.2 x hxtake y hy
    · rw [if_neg h3] at hxn
      exact absurd hx hxn

/-- C7 witness: a full archive [1,2,3,4,5] receives snapshot 6 at instant
2000; the result stays within the bound and the pruned snapshot 1 is older
than the retained snapshot 6. -/
theorem C7_witness :
    (run_backups ⟨[1, 2, 3, 4, 5], 0⟩ [(2000, 6, true)]).files.length ≤ maxCookieBackups
    ∧ (1 : Nat) < 6 :=
  ⟨C7_theorem.1 ⟨[1, 2, 3, 4, 5], 0⟩ [(2000, 6, true)] (by decide),
   C7_theorem.2 ⟨[1, 2, 3, 4, 5], 0⟩ 2000 6 true 1 6 (by decide) (by decide)
     (by decide) (by decide) (by decide)⟩

/-! ## Claim C1 -/

/-- C1 counterexample: in a fast-path-eligible state (live context and
page, health check 100 s ago) whose restart record holds three in-window
timestamps, `ensure_browser(force_check=False)` returns False, not Ready:
the budget gate of lines 67-69 runs before the fast path of lines 72-75. -/
theorem C1_counterexample :
    budgetFullState.browser_context = true ∧ budgetFullState.main_page = true
    ∧ (1100 : Int) - budgetFullState.last_health_check < 300
    ∧ (okResult (ensure_browser budgetFullState 1100 false scriptOk)).map Prod.fst
        = some false :=
  ⟨rfl, rfl, by decide, by decide⟩

/-- C1 (amended): when additionally fewer than `max_restarts_per_hour`
restart timestamps lie in the rolling 3600 s window, the fast path fires:
`ensure_browser(force_check=False)` returns Ready immediately, the only
state change is the pruning of the restart record (no timestamp appended,
`last_health_check` untouched), and the trace shows no probe, no start, no
restart and no recovery. -/
theorem C1_theorem : ∀ (s : BrowserState) (now : Int) (sc : EnsureScript),
    s.browser_context = true → s.main_page = true →
    now - s.last_health_check < 300 →
    (pruneWindow now s.restart_timestamps).length < s.max_restarts_per_hour →
    ensure_browser s now false sc
      = Except.ok (true, pruneState s now, [Ev.fastPath]) := by
  intro s now sc hctx hpage htime hbudget
  have hb : ensure_body s now false sc
      = Except.ok (true, pruneState s now, [Ev.fastPath]) := by
    unfold ensure_body ensure_body1 pruneState
    dsimp only
    rw [if_neg (by omega), if_pos ⟨rfl, hctx, hpage, htime⟩]
  unfold ensure_browser
  rw [hb]

/-- C1 witness: a live state with an empty restart record and a health
check 100 s old takes the fast path. -/
theorem C1_witness :
    ensure_browser freshState 200 false scriptOk
      = Except.ok (true, pruneState freshState 200, [Ev.fastPath]) :=
  C1_theorem freshState 200 scriptOk rfl rfl (by decide) (by decide)

/-! ## Claim C2 -/

theorem apply_restore_ts (s : BrowserState) (r : Except String Bool) :
    (apply_restore s r).restart_timestamps = s.restart_timestamps := by
  unfold apply_restore
  cases r with
  | ok b => rfl
  | error e => rfl

/-- The launch loop appends exactly one timestamp on success and none on
failure. -/
theorem start_browser_go_ts (now : Int) (oc : Nat → Option String) :
    ∀ (fuel idx : Nat) (s : BrowserState),
      (∀ s1 tr, start_browser_go now oc fuel idx s = Except.ok (s1, tr) →
        s1.restart_timestamps = s.restart_timestamps ++ [now])
      ∧ (∀ msg s1, start_browser_go now oc fuel idx s = Except.error (msg, s1) →
        s1.restart_timestamps = s.restart_timestamps) := by
  intro fuel
  induction fuel with
  | zero =>
    intro idx s
    constructor
    · intro s1 tr h
      exact Except.noConfusion h
    · intro msg s1 h
      injection h with he
      injection he with h5 h6
      rw [← h6]
  | succ r ih =>
    intro idx s
    constructor
    · intro s1 tr h
      unfold start_browser_go at h
      cases hoc : oc idx with
      | none =>
        rw [hoc] at h
        dsimp only at h
        injection h with he
        injection he with h5 h6
        rw [← h5]
      | some msg =>
        rw [hoc] at h
        dsimp only at h
        by_cases hc : msgHasSingletonConflict msg = true
        · rw [if_pos hc] at h
          exact (ih (idx + 1) s).1 s1 tr h
        · rw [if_neg hc] at h
          by_cases hr : r = 0
          · rw [if_pos hr] at h
            exact Except.noConfusion h
          · rw [if_neg hr] at h
            have hts := (ih (idx + 1) (resetHandles s)).1 s1 tr h
            rw [hts]
            rfl
    · intro msg2 s1 h
      unfold start_browser_go at h
      cases hoc : oc idx with
      | none =>
        rw [hoc] at h
        dsimp only at h
        exact Except.noConfusion h
      | some msg =>
        rw [hoc] at h
        dsimp only at h
        by_cases hc : msgHasSingletonConflict msg = true
        · rw [if_pos hc] at h
          exact (ih (idx + 1) s).2 msg2 s1 h
        · rw [if_neg hc] at h
          by_cases hr : r = 0
          · rw [if_pos hr] at h
            injection h with he
            injection he with h5 h6
            rw [← h6]
            rfl
          · rw [if_neg hr] at h
            have hts := (ih (idx + 1) (resetHandles s)).2 msg2 s1 h
            rw [hts]
            rfl

/-- C2 counterexample: a successful `_safe_restart` on an empty restart
record leaves two timestamps, not the single one the claim allows —
`_safe_restart` appends one at line 253 and `_start_browser` appends a
second at line 380. -/
theorem C2_counterexample :
    (okResult (safe_restart freshState 7 scriptOk)).map
      (fun r => r.fst.restart_timestamps) = some [7, 7] := by decide

/-- C2 (amended): every execution of the FullRestart path appends exactly
two timestamps to the restart record when the new browser comes up
successfully (one from `_safe_restart` itself, one from `_start_browser`),
and exactly one when the bring-up fails and the restart re-raises. -/
theorem C2_theorem :
    (∀ (s : BrowserState) (now : Int) (sc : EnsureScript) (s1 : BrowserState) (tr : List Ev),
      safe_restart s now sc = Except.ok (s1, tr) →
      s1.restart_timestamps = s.restart_timestamps ++ [now, now])
    ∧ (∀ (s : BrowserState) (now : Int) (sc : EnsureScript) (msg : String)
        (s1 : BrowserState) (tr : List Ev),
      safe_restart s now sc = Except.error (msg, s1, tr) →
      s1.restart_timestamps = s.restart_timestamps ++ [now]) := by
  constructor
  · intro s now sc s1 tr h
    unfold safe_restart at h
    cases hsb : start_browser
        { resetHandles s with restart_timestamps := s.restart_timestamps ++ [now] }
        now sc.startAttempts with
    | error e =>
      obtain ⟨msg3, s4⟩ := e
      rw [hsb] at h
      dsimp only at h
      exact Except.noConfusion h
    | ok v =>
      obtain ⟨s3, tr1⟩ := v
      rw [hsb] at h
      dsimp only at h
      injection h with he
      injection he with h5 h6
      have hts := (start_browser_go_ts now sc.startAttempts 3 0 _).1 s3 tr1 hsb
      rw [← h5, apply_restore_ts, hts]
      dsimp only
      rw [List.append_assoc]
      rfl
  · intro s now sc msg s1 tr h
    unfold safe_restart at h
    cases hsb : start_browser
        { resetHandles s with restart_timestamps := s.restart_timestamps ++ [now] }
        now sc.startAttempts with
    | ok v =>
      obtain ⟨s3, tr1⟩ := v
      rw [hsb] at h
      dsimp only at h
      exact Except.noConfusion h
    | error e =>
      obtain ⟨msg3, s4⟩ := e
      rw [hsb] at h
      dsimp only at h
      injection h with he
      injection he with h5 h6
      injection h6 with h7 h8
      have hts := (start_browser_go_ts now sc.startAttempts 3 0 _).2 msg3 s4 hsb
      rw [← h7, hts]

/-- The state left by the witness restart. -/
def restartedState : BrowserState := ⟨true, true, true, false, 100, [7, 7], true, 3⟩

/-- C2 witness: a concrete successful FullRestart at instant 7 on an empty
record ends with the two timestamps the amended claim predicts. -/
theorem C2_witness :
    restartedState.restart_timestamps = freshState.restart_timestamps ++ [7, 7] :=
  C2_theorem.1 freshState 7 scriptOk restartedState
    [Ev.budgetAppend, Ev.budgetAppend, Ev.restoreLogin] rfl

/-! ## Claim C9 -/

/-- C9 (amended): `ensure_browser` never lets an exception escape — for
every state and every script of driver faults it returns a boolean outcome.
When the try-block raises, the handler attempts exactly one LightRecovery
and returns Ready if `_can_restart` allows it; when the restart budget is
exhausted it returns the failure outcome directly, with no LightRecovery
attempt. -/
theorem C9_theorem :
    (∀ (s : BrowserState) (now : Int) (force_check : Bool) (sc : EnsureScript),
      isOkE (ensure_browser s now force_check sc) = true)
    ∧ (∀ (s : BrowserState) (now : Int) (force_check : Bool) (sc : EnsureScript)
        (msg : String) (s1 : BrowserState) (tr1 : List Ev),
      ensure_body s now force_check sc = Except.error (msg, s1, tr1) →
      (can_restart s1 now).fst = true →
      ensure_browser s now force_check sc
        = Except.ok (true, (light_recovery (can_restart s1 now).snd sc).snd,
            tr1 ++ [Ev.lightRecovery]))
    ∧ (∀ (s : BrowserState) (now : Int) (force_check : Bool) (sc : EnsureScript)
        (msg : String) (s1 : BrowserState) (tr1 : List Ev),
      ensure_body s now force_check sc = Except.error (msg, s1, tr1) →
      (can_restart s1 now).fst = false →
      ensure_browser s now force_check sc
        = Except.ok (false, (can_restart s1 now).snd, tr1)) := by
  refine ⟨?_, ?_, ?_⟩
  · intro s now fc sc
    unfold ensure_browser
    cases h : ensure_body s now fc sc with
    | ok r => rfl
    | error e =>
      obtain ⟨msg, s1, tr1⟩ := e
      dsimp only
      by_cases hc : (can_restart s1 now).fst = true
      · rw [if_pos hc]
        rfl
      · rw [if_neg hc]
        rfl
  · intro s now fc sc msg s1 tr1 hb hc
    unfold ensure_browser
    rw [hb]
    dsimp only
    rw [if_pos hc]
  · intro s now fc sc msg s1 tr1 hb hc
    unfold ensure_browser
    rw [hb]
    dsimp only
    rw [if_neg (by simp [hc])]

/-- A live state whose restart record lets one more restart through; the
failing restart then fills the budget before the handler runs. -/
def errBudgetState : BrowserState := ⟨true, true, true, false, 0, [1000, 1000], true, 3⟩

/-- A script whose liveness probe raises a disconnect error and whose
launch attempts all fail. -/
def crashScript : EnsureScript :=
  ⟨0, ProbeOutcome.raised "session closed", fun _ => some "boom", Except.ok false, true⟩

/-- C9 counterexample: an internal error (the failed `_safe_restart`)
escapes into the handler while the (now replenished-to-limit) budget denies
a restart, so `ensure_browser` returns the failure outcome with no
LightRecovery attempt — its trace holds only the probe, the restart and the
budget append, no recovery event. -/
theorem C9_counterexample :
    isOkE (ensure_body errBudgetState 1000 false crashScript) = false
    ∧ (okResult (ensure_browser errBudgetState 1000 false crashScript)).map Prod.fst
        = some false
    ∧ (okResult (ensure_browser errBudgetState 1000 false crashScript)).map
        (fun r => r.snd.snd) = some [Ev.healthProbe, Ev.safeRestart, Ev.budgetAppend] :=
  ⟨by decide, by decide, by decide⟩

/-- A torn-down state with an empty restart record. -/
def downState : BrowserState := ⟨false, false, false, false, 0, [], true, 3⟩

/-- A script on which every launch attempt fails with a generic error. -/
def failStartScript : EnsureScript :=
  ⟨0, ProbeOutcome.finished false, fun _ => some "boom", Except.ok false, true⟩

/-- C9 witness: a cold start whose launch fails raises into the handler;
the budget is free, so one LightRecovery is attempted and ensure returns
a boolean. -/
theorem C9_witness :
    ensure_browser downState 100 false failStartScript
      = Except.ok (true,
          (light_recovery (can_restart downState 100).snd failStartScript).snd,
          [Ev.startBrowser] ++ [Ev.lightRecovery]) :=
  C9_theorem.2.1 downState 100 false failStartScript "boom" downState [Ev.startBrowser]
    rfl rfl

/-! ## Claim C4 -/

/-- Every `ensure_browser` call made by `goto` is recorded in front of its
own events, carrying its `force_check` flag. -/
theorem run_ensure_trace (s : BrowserState) (now : Int) (f : Bool) (sc : EnsureScript) :
    ∃ rest, (run_ensure s now f sc).snd.snd = Ev.ensureCall f :: rest := by
  unfold run_ensure
  cases ensure_browser s now f sc with
  | ok r =>
    obtain ⟨b, s1, tr⟩ := r
    exact ⟨tr, rfl⟩
  | error e => exact ⟨[], rfl⟩

/-- C4 (amended): a navigation failure classified Disconnected (error text
containing "closed" or "disconnected") marks the session unhealthy.  When
retry attempts remain, `goto` itself immediately performs a forced health
check (`ensure_browser(force_check=True)`).  But when the failure hits the
final attempt, only the unhealthy flag is set, and the next `ensure` call —
issued without `force_check` at the start of the following `goto` — is not
forced, so it may still take the fast path. -/
theorem C4_theorem :
    (∀ (now : Int) (maxRetries : Nat) (gsc : GotoScript) (fuel idx ensIdx : Nat)
        (s : BrowserState) (msg : String),
      gsc.attempts idx = some msg →
      containsSeq ("timeout".data) (lowerStr msg) = false →
      msgHasClosedOrDisconnected msg = true →
      idx < maxRetries →
      (goto_loop now maxRetries gsc (fuel + 1) idx ensIdx s).snd.snd.head?
        = some (Ev.ensureCall true))
    ∧ (∀ (now : Int) (maxRetries : Nat) (gsc : GotoScript) (fuel idx ensIdx : Nat)
        (s : BrowserState) (msg : String),
      gsc.attempts idx = some msg →
      containsSeq ("timeout".data) (lowerStr msg) = false →
      msgHasClosedOrDisconnected msg = true →
      ¬ idx < maxRetries →
      goto_loop now maxRetries gsc (fuel + 1) idx ensIdx s
        = (false, { s with browser_healthy := false }, []))
    ∧ (∀ (s : BrowserState) (now : Int) (maxRetries : Nat) (gsc : GotoScript),
      s.browser_healthy = false →
      (goto s now maxRetries gsc).snd.snd.head? = some (Ev.ensureCall false)) := by
  refine ⟨?_, ?_, ?_⟩
  · intro now maxR gsc fuel idx ensIdx s msg h0 ht hd hlt
    unfold goto_loop
    rw [h0]
    dsimp only
    rw [if_neg (by simp [ht]), if_pos hd, if_pos hlt]
    unfold withTrace
    dsimp only
    obtain ⟨rest, hr⟩ := run_ensure_trace { s with browser_healthy := false } now true
      (gsc.ens ensIdx)
    rw [hr, List.cons_append]
    rfl
  · intro now maxR gsc fuel idx ensIdx s msg h0 ht hd hge
    unfold goto_loop
    rw [h0]
    dsimp only
    rw [if_neg (by simp [ht]), if_pos hd, if_neg hge]
  · intro s now maxR gsc h
    unfold goto
    rw [if_pos h]
    unfold withTrace
    dsimp only
    obtain ⟨rest, hr⟩ := run_ensure_trace s now false (gsc.ens 0)
    rw [hr, List.cons_append]
    rfl

/-- A `goto` script on which every navigation attempt dies with a
disconnected transport. -/
def disconnectGotoScript : GotoScript :=
  ⟨fun _ => some "connection disconnected", fun _ => scriptOk⟩

/-- A `goto` script on which every navigation attempt succeeds. -/
def okGotoScript : GotoScript := ⟨fun _ => none, fun _ => scriptOk⟩

/-- The manager state after a `goto` with `max_retries = 0` whose single
attempt failed disconnected. -/
def afterDisconnectState : BrowserState :=
  (goto probeErrState 10 0 disconnectGotoScript).snd.fst

/-- C4 counterexample: a Disconnected-classified failure on the final
navigation attempt sets the unhealthy flag, yet the next `ensure` call —
the one the following `goto` issues because of that flag — runs with
`force_check=False` and takes the fast path, contradicting the claim that
the next ensure() performs a forced health check. -/
theorem C4_counterexample :
    msgHasClosedOrDisconnected "connection disconnected" = true
    ∧ (goto probeErrState 10 0 disconnectGotoScript).fst = false
    ∧ afterDisconnectState.browser_healthy = false
    ∧ (goto afterDisconnectState 10 0 okGotoScript).snd.snd
        = [Ev.ensureCall false, Ev.fastPath] :=
  ⟨by decide, by decide, by decide, by decide⟩

/-- A `goto` script that fails once with a closed transport. -/
def disconnectOnceScript : GotoScript :=
  ⟨fun _ => some "connection closed", fun _ => scriptOk⟩

/-- C4 witness: with a retry remaining, the disconnect-classified failure
at attempt 0 makes `goto` immediately issue a forced `ensure` call. -/
theorem C4_witness :
    (goto_loop 10 1 disconnectOnceScript 2 0 0 probeErrState).snd.snd.head?
      = some (Ev.ensureCall true) :=
  C4_theorem.1 10 1 disconnectOnceScript 1 0 0 probeErrState "connection closed"
    rfl (by decide) (by decide) (by decide)

end RedbookMcp
